import Mathlib

/-!
TSMultimeter — verification of the wire codec, device variants and session manager

Shallow embedding of the Rust backend of TSMultimeter
(`src/backend/src/device/fluke.rs`, `src/backend/src/device/mock.rs`,
`src/backend/src/communication.rs`, `src/backend/src/device/mod.rs`,
`src/backend/src/error.rs`) together with proofs about the embedded code.

Modelling conventions:
* Rust `String`/`&str` values are Lean `String`s; the string helpers the code
  relies on (`split`, `trim`, `trim_end_matches`) are re-implemented over
  `List Char` by structural recursion so that every definition evaluates by
  kernel reduction.  All wire traffic in this protocol is ASCII, so the
  byte/char distinction of Rust string indexing is immaterial and
  `response.get(1..)` is modelled as dropping one character of a non-empty
  string.
* Rust `f64` values produced by `str::parse::<f64>` are modelled by the exact
  rational value of the decimal literal (`ℚ`).  The IEEE rounding step from
  that rational to the nearest double is a function of the rational, so
  equalities between parsed values transfer to equalities of the doubles; the
  special `inf`/`nan` spellings accepted by Rust are not modelled (no claim
  touches them).
* `std::time::Instant` values are modelled as natural-number timestamps in
  milliseconds; `Instant::elapsed` is truncated subtraction, mirroring the
  fact that an `Instant` difference is never negative.
* I/O effects (serial reads, the random generator of the mock device) are
  modelled by passing their results in explicitly: a serial exchange is a
  trace of read events, a random draw is a parameter.
* `Measurement.timestamp` (assigned from the wall clock at parse time) is
  modelled as an opaque-free optional natural; no claim constrains it, and it
  is omitted from the embedded `Measurement` record.
-/

namespace Multimeter

/-- The error taxonomy of `src/backend/src/error.rs` (`enum Error`).  The
`Serial`, `Io` and `Json` variants carry foreign error values in Rust; the
claims only ever distinguish them from the other variants, so they are
modelled without payloads. -/
inductive Err where
  | serial : Err
  | ioErr : Err
  | parse : String → Err
  | device : String → Err
  | timeout : Err
  | invalidCommand : String → Err
  | connection : String → Err
  | config : String → Err
  | json : Err
deriving DecidableEq

/-- `DeviceType` from `src/backend/src/device/mod.rs`. -/
inductive DeviceType where
  | fluke289 : DeviceType
  | fluke287 : DeviceType
  | mock : DeviceType
deriving DecidableEq

/-- `Unit` from `src/backend/src/device/mod.rs` (renamed: `Unit` is taken by
the Lean prelude). -/
inductive MeterUnit where
  | none | voltDc | voltAc | ampDc | ampAc | voltAcPlusDc | ampAcPlusDc
  | volt | amp | ohm | siemens | hertz | second | farad | celsius
  | fahrenheit | percent | decibelM | decibelV | decibel | crestFactor
deriving DecidableEq

/-- `MeasurementState` from `src/backend/src/device/mod.rs`. -/
inductive MeasurementState where
  | normal | invalid | blank | overload | overloadNegative
  | openThermocouple | discharge
deriving DecidableEq

/-- `MeasurementAttribute` from `src/backend/src/device/mod.rs`. -/
inductive MeasurementAttribute where
  | none | openCircuit | shortCircuit | glitchCircuit | goodDiode
  | lowOhms | negativeEdge | positiveEdge | highCurrent
deriving DecidableEq

/-- `Measurement` from `src/backend/src/device/mod.rs`; the `f64` value is
modelled as an exact rational, the `attribute` field is renamed `attr`
(`attribute` is a Lean keyword) and the wall-clock timestamp is omitted (see
the header comment). -/
structure Measurement where
  value : ℚ
  unit : MeterUnit
  state : MeasurementState
  attr : MeasurementAttribute
deriving DecidableEq

/-- `DeviceInfo` from `src/backend/src/device/mod.rs`. -/
structure DeviceInfo where
  model : String
  serial_number : String
  software_version : String
deriving DecidableEq

/-! Section: string helpers.

Structural-recursion models of the Rust string operations used by the codec. -/

/-- Helper for `splitOnChar`: accumulates the current field in reverse. -/
def splitOnCharAux (sep : Char) : List Char → List Char → List (List Char)
  | [], acc => [acc.reverse]
  | c :: cs, acc =>
    if c = sep then acc.reverse :: splitOnCharAux sep cs []
    else splitOnCharAux sep cs (c :: acc)

/-- Rust `str::split(sep)` for a single-`char` separator: `"a,b"` splits to
`["a", "b"]`, `""` splits to `[""]`, `","` splits to `["", ""]`. -/
def splitOnChar (sep : Char) (s : String) : List String :=
  (splitOnCharAux sep s.data []).map List.asString

/-- Rust `str::trim` (leading and trailing whitespace removed; the wire
traffic is ASCII, where Rust's Unicode whitespace and `Char.isWhitespace`
agree). -/
def trimStr (s : String) : String :=
  ((s.data.dropWhile Char.isWhitespace).reverse.dropWhile Char.isWhitespace).reverse.asString

/-- Rust `str::trim_end_matches('\n')`: removes every trailing newline. -/
def trimEndNewlines (cs : List Char) : List Char :=
  (cs.reverse.dropWhile (fun c => c = '\n')).reverse

/-- Number of occurrences of `sep` in a string
(Rust `chunk.matches('\r').count()`). -/
def countChar (sep : Char) (s : String) : ℕ :=
  s.data.count sep

/-- The ASCII digit character for `d < 10`. -/
def digitChar (d : ℕ) : Char := Char.ofNat (48 + d)

/-- Decimal digit string of a natural number, big-endian, no leading zeros
(the digit sequence Rust's integer `Display` produces). -/
def natDigits (n : ℕ) : List Char :=
  if _h : n < 10 then [digitChar n]
  else natDigits (n / 10) ++ [digitChar (n % 10)]
decreasing_by exact Nat.div_lt_self (by omega) (by omega)

/-- Left-pad a digit string with `'0'` to width `w` (Rust's `{:04}` /
fraction padding: no change when already at least `w` long). -/
def padZeros (w : ℕ) (ds : List Char) : List Char :=
  List.replicate (w - ds.length) '0' ++ ds

/-! Section: wire codec, `FlukeDevice::parse_ack` (fluke.rs lines 121–136). -/

/-- `FlukeDevice::parse_ack`: classify the leading status character of a
normalized response. -/
def parse_ack (response : String) : Except Err Unit :=
  match response.data with
  | [] => .error (.parse "Empty response")
  | c :: _ =>
    if c = '0' then .ok ()
    else if c = '1' then .error (.invalidCommand "Syntax error")
    else if c = '2' then .error (.device "Execution error")
    else if c = '5' then .error (.device "No data available")
    else .error (.parse ("Unknown ACK code: " ++ c.toString))

/-- The acknowledgement-code table of spec §4.2: `0`→success,
`1`→InvalidCommand (syntax error), `2`→Device execution error, `5`→Device
"no data available". -/
def ackTable : List (Char × Except Err Unit) :=
  [('0', .ok ()),
   ('1', .error (.invalidCommand "Syntax error")),
   ('2', .error (.device "Execution error")),
   ('5', .error (.device "No data available"))]

/-- Acknowledgement parsing as the specification words it (§4.2 "Response
decoding"): look the first character of the normalized response up in the
code table, any other character is a Parse failure naming the unknown code,
an empty response is a Parse failure.  Written from the spec, to be compared
against `parse_ack` (written from the source). -/
def parseAckSpec (response : String) : Except Err Unit :=
  match response.data.head? with
  | Option.none => .error (.parse "Empty response")
  | some c =>
    (ackTable.lookup c).getD (.error (.parse ("Unknown ACK code: " ++ c.toString)))

/-! Section: decimal number parsing, model of Rust `str::parse::<f64>`.

The parsed double is modelled by the exact rational value of the accepted
literal (sign, decimal digits with at most one point, optional exponent).
The `inf`/`infinity`/`nan` spellings of Rust's grammar are not modelled; no
claim involves them. -/

/-- Numeric value of an ASCII digit character. -/
def digitVal (c : Char) : ℕ := c.toNat - 48

/-- Value of a big-endian digit string (leading zeros allowed). -/
def digitsToNat (cs : List Char) : ℕ :=
  cs.foldl (fun a c => 10 * a + digitVal c) 0

/-- Split a character list at the first character satisfying `p`; returns the
prefix and, when a split character was found, the remainder after it. -/
def splitFirst (p : Char → Bool) : List Char → List Char × Option (List Char)
  | [] => ([], Option.none)
  | c :: cs =>
    if p c then ([], some cs)
    else
      let r := splitFirst p cs
      (c :: r.1, r.2)

/-- Strip an optional leading sign; `true` means negative. -/
def stripSign : List Char → Bool × List Char
  | '-' :: r => (true, r)
  | '+' :: r => (false, r)
  | cs => (false, cs)

/-- Model of Rust `str::parse::<f64>` on its finite-literal grammar:
`[+-]? digits? ['.' digits?]? [('e'|'E') [+-]? digits]?` with at least one
mantissa digit; the result is the exact rational value of the literal,
`ip.fp × 10^±e`, built with `mkRat` so that it evaluates by kernel
reduction. -/
def parseF64 (s : String) : Option ℚ :=
  let signAndRest := stripSign s.data
  let neg := signAndRest.1
  let mantExp := splitFirst (fun c => c == 'e' || c == 'E') signAndRest.2
  let intFrac := splitFirst (fun c => c == '.') mantExp.1
  let ip := intFrac.1
  let fp := intFrac.2.getD []
  if (ip ++ fp).isEmpty then Option.none
  else if !((ip ++ fp).all Char.isDigit) then Option.none
  else
    let mantNum : ℤ :=
      if neg then -(digitsToNat (ip ++ fp) : ℤ) else (digitsToNat (ip ++ fp) : ℤ)
    match mantExp.2 with
    | Option.none => some (mkRat mantNum (10 ^ fp.length))
    | some ecs =>
      let esignAndDigits := stripSign ecs
      let ds := esignAndDigits.2
      if ds.isEmpty || !(ds.all Char.isDigit) then Option.none
      else
        let e := digitsToNat ds
        if esignAndDigits.1 then some (mkRat mantNum (10 ^ (fp.length + e)))
        else some (mkRat (mantNum * ((10 ^ e : ℕ) : ℤ)) (10 ^ fp.length))

/-! Section: wire codec, enumeration tables (fluke.rs lines 167–222). -/

/-- `FlukeDevice::parse_unit`. -/
def parse_unit (unit_str : String) : Except Err MeterUnit :=
  match unit_str with
  | "NONE" => .ok .none
  | "VDC" => .ok .voltDc
  | "VAC" => .ok .voltAc
  | "ADC" => .ok .ampDc
  | "AAC" => .ok .ampAc
  | "VAC_PLUS_DC" => .ok .voltAcPlusDc
  | "AAC_PLUS_DC" => .ok .ampAcPlusDc
  | "V" => .ok .volt
  | "A" => .ok .amp
  | "OHM" => .ok .ohm
  | "S" => .ok .siemens
  | "Hz" => .ok .hertz
  | "SEC" => .ok .second
  | "F" => .ok .farad
  | "CEL" => .ok .celsius
  | "FAR" => .ok .fahrenheit
  | "PCT" => .ok .percent
  | "dBm" => .ok .decibelM
  | "dBV" => .ok .decibelV
  | "dB" => .ok .decibel
  | "CREST_FACTOR" => .ok .crestFactor
  | _ => .error (.parse ("Unknown unit: " ++ unit_str))

/-- `FlukeDevice::parse_state`. -/
def parse_state (state_str : String) : Except Err MeasurementState :=
  match state_str with
  | "NORMAL" => .ok .normal
  | "INVALID" => .ok .invalid
  | "BLANK" => .ok .blank
  | "OL" => .ok .overload
  | "OL_MINUS" => .ok .overloadNegative
  | "OPEN_TC" => .ok .openThermocouple
  | "DISCHARGE" => .ok .discharge
  | _ => .error (.parse ("Unknown state: " ++ state_str))

/-- `FlukeDevice::parse_attribute`. -/
def parse_attribute (attr_str : String) : Except Err MeasurementAttribute :=
  match attr_str with
  | "NONE" => .ok .none
  | "OPEN_CIRCUIT" => .ok .openCircuit
  | "SHORT_CIRCUIT" => .ok .shortCircuit
  | "GLITCH_CIRCUIT" => .ok .glitchCircuit
  | "GOOD_DIODE" => .ok .goodDiode
  | "LEO_OHMS" => .ok .lowOhms
  | "NEGATIVE_EDGE" => .ok .negativeEdge
  | "POSITIVE_EDGE" => .ok .positiveEdge
  | "HIGH_CURRENT" => .ok .highCurrent
  | _ => .error (.parse ("Unknown attribute: " ++ attr_str))

/-! Section: wire codec, `FlukeDevice::parse_measurement` (fluke.rs lines 139–164). -/

/-- `FlukeDevice::parse_measurement`: split the payload on commas into at
least 4 fields and decode value, unit, state and attribute. -/
def parse_measurement (response : String) : Except Err Measurement :=
  let parts := splitOnChar ',' response
  if parts.length < 4 then .error (.parse "Invalid measurement response format")
  else
    match parseF64 (trimStr (parts.getD 0 "")) with
    | Option.none => .error (.parse ("Invalid measurement value: " ++ parts.getD 0 ""))
    | some value =>
      match parse_unit (trimStr (parts.getD 1 "")) with
      | .error e => .error e
      | .ok unit =>
        match parse_state (trimStr (parts.getD 2 "")) with
        | .error e => .error e
        | .ok state =>
          match parse_attribute (trimStr (parts.getD 3 "")) with
          | .error e => .error e
          | .ok attr => .ok ⟨value, unit, state, attr⟩

/-- Model of `response.get(1..)` on a normalized response: drop the leading
acknowledgement character (always single-byte ASCII here).  `None` in Rust —
a missing payload — corresponds to the empty response, rejected with the
error message passed in (`"Measurement payload missing"` /
`"Identification payload missing"`). -/
def payloadAfterAck (missingMsg : String) (response : String) : Except Err String :=
  match response.data with
  | [] => .error (.parse missingMsg)
  | _ :: rest => .ok ⟨rest⟩

/-- `FlukeDevice::get_measurement` after the serial exchange (fluke.rs lines
311–318): acknowledgement check (`?`), payload extraction (`ok_or_else`),
measurement parse. -/
def get_measurement_decode (response : String) : Except Err Measurement :=
  match parse_ack response with
  | .error e => .error e
  | .ok _ =>
    match payloadAfterAck "Measurement payload missing" response with
    | .error e => .error e
    | .ok payload => parse_measurement payload

/-- `FlukeDevice::identify` after the serial exchange (fluke.rs lines
286–309): acknowledgement check (`?`), payload extraction (`ok_or_else`),
comma split into model, software version and serial number, each trimmed. -/
def identify_decode (response : String) : Except Err DeviceInfo :=
  match parse_ack response with
  | .error e => .error e
  | .ok _ =>
    match payloadAfterAck "Identification payload missing" response with
    | .error e => .error e
    | .ok payload =>
      let parts := splitOnChar ',' payload
      if parts.length < 3 then .error (.parse "Invalid identification response")
      else
        .ok { model := trimStr (parts.getD 0 "")
              serial_number := trimStr (parts.getD 2 "")
              software_version := trimStr (parts.getD 1 "") }

/-! Section: serial read loop of `FlukeDevice::send_command_internal`
(fluke.rs lines 38–118).

The loop repeatedly calls `port.read`.  A trace of that transport is a list
of read events; times are `Instant`s in milliseconds. -/

/-- `ACK_TIMEOUT` (fluke.rs line 16), in milliseconds. -/
def ACK_TIMEOUT : ℕ := 5000

/-- `PAYLOAD_IDLE_TIMEOUT` (fluke.rs line 17), in milliseconds. -/
def PAYLOAD_IDLE_TIMEOUT : ℕ := 750

/-- One result of `port.read`: a non-empty chunk arriving at an instant
(`Ok(n)` with `n > 0`), an empty successful read (`Ok(0)`), a read timeout
observed at an instant (`Err` of kind `TimedOut`), or any other I/O error. -/
inductive ReadEvent where
  | data : String → ℕ → ReadEvent
  | empty : ReadEvent
  | timedOut : ℕ → ReadEvent
  | fatal : ReadEvent
deriving DecidableEq

/-- The loop's mutable locals (fluke.rs lines 54–57). -/
structure LoopState where
  response : String
  carriage_returns : ℕ
  ack_received : Bool
  last_activity : ℕ
deriving DecidableEq

/-- How one pass of the read loop ends: keep looping is the `Sum.inl` side of
`readStep`; otherwise the loop completes with the accumulated response,
returns the Timeout error, or propagates another I/O error. -/
inductive LoopOutcome where
  | complete : String → LoopOutcome
  | timeout : LoopOutcome
  | ioError : LoopOutcome
deriving DecidableEq

/-- One iteration of the read loop (fluke.rs lines 59–95) on one read event:
count carriage returns and accumulate on data, break once two carriage
returns are seen, check the dual timeout policy on a timed-out read, ignore
empty reads, propagate fatal errors. -/
def readStep (st : LoopState) : ReadEvent → LoopState ⊕ LoopOutcome
  | .data chunk t =>
    let crs := st.carriage_returns + countChar '\r' chunk
    let resp := st.response ++ chunk
    if crs ≥ 2 then .inr (.complete resp)
    else .inl { response := resp, carriage_returns := crs,
                ack_received := st.ack_received || decide (crs ≥ 1),
                last_activity := t }
  | .empty => .inl st
  | .timedOut t =>
    if !st.ack_received then
      if t - st.last_activity > ACK_TIMEOUT then .inr .timeout
      else .inl st
    else if t - st.last_activity > PAYLOAD_IDLE_TIMEOUT then .inr (.complete st.response)
    else .inl st
  | .fatal => .inr .ioError

/-- Run the read loop over a trace of read events.  `none` means the trace
was exhausted with the loop still running. -/
def runRead (st : LoopState) : List ReadEvent → Option LoopOutcome
  | [] => Option.none
  | e :: es =>
    match readStep st e with
    | .inl st' => runRead st' es
    | .inr outcome => some outcome

/-- The loop's locals at entry (fluke.rs lines 54–57), at instant `t0`. -/
def initLoopState (t0 : ℕ) : LoopState :=
  { response := "", carriage_returns := 0, ack_received := false, last_activity := t0 }

/-- The instant of the last successful non-empty read in a trace prefix
(`last_activity` tracking), starting from `t0`. -/
def lastActivityAt (t0 : ℕ) : List ReadEvent → ℕ
  | [] => t0
  | .data _ t :: es => lastActivityAt t es
  | _ :: es => lastActivityAt t0 es

/-- `true` when a data event's chunk carries no carriage return (non-data
events vacuously satisfy it). -/
def chunkCRFree : ReadEvent → Bool
  | .data chunk _ => countChar '\r' chunk == 0
  | _ => true

/-- `true` exactly on the fatal-I/O-error event. -/
def isFatal : ReadEvent → Bool
  | .fatal => true
  | _ => false

/-- Normalization of the accumulated response (fluke.rs lines 97–117): an
empty accumulated response is a Timeout failure; otherwise split on carriage
returns, strip trailing newlines, discard empty segments, require an
acknowledgement line and concatenate the remaining segments onto it. -/
def normalizeResponse (response : String) : Except Err String :=
  if response = "" then .error .timeout
  else
    let lines := ((splitOnChar '\r' response).map
        (fun l => (trimEndNewlines l.data).asString)).filter (fun l => !(l == ""))
    match lines with
    | [] => .error (.parse "Missing ACK")
    | ack_line :: rest => .ok (rest.foldl (fun acc l => acc ++ l) ack_line)

/-- `FlukeDevice::send_command_internal` after the command has been written:
run the read loop over the transport trace and normalize.  `none` means the
trace was exhausted with the loop still running. -/
def send_command_exchange (t0 : ℕ) (events : List ReadEvent) : Option (Except Err String) :=
  match runRead (initLoopState t0) events with
  | Option.none => Option.none
  | some .timeout => some (.error .timeout)
  | some .ioError => some (.error .ioErr)
  | some (.complete response) => some (normalizeResponse response)

/-! Section: `FlukeDevice` connection state (fluke.rs lines 21–35, 231–284).

The boxed serial-port handle is opaque to every claim; it is modelled as
`Unit`.  Opening the OS serial port is I/O, so its result is a parameter of
`flukeConnect`; the best-effort DTR/RTS/buffer-clear steps after a
successful open only log on failure and do not affect the state. -/

/-- `FlukeDevice` (fluke.rs lines 21–25). -/
structure FlukeDevice where
  device_type : DeviceType
  port_name : Option String
  port : Option Unit
deriving DecidableEq

/-- `FlukeDevice::new` (fluke.rs lines 29–35): fresh instance, no port open. -/
def FlukeDevice.new (device_type : DeviceType) (port_name : Option String) : FlukeDevice :=
  { device_type := device_type, port_name := port_name, port := Option.none }

/-- `FlukeDevice::connect` (fluke.rs lines 231–266): no-op when already
connected; `Config` failure when no port name is configured; otherwise the
open result decides the outcome. -/
def flukeConnect (openResult : Except Err Unit) (s : FlukeDevice) : Except Err FlukeDevice :=
  if s.port.isSome then .ok s
  else
    match s.port_name with
    | Option.none => .error (.config "No port specified")
    | some _ =>
      match openResult with
      | .error e => .error e
      | .ok handle => .ok { s with port := some handle }

/-- `FlukeDevice::disconnect` (fluke.rs lines 268–278): idempotent, drops the
port handle. -/
def flukeDisconnect (s : FlukeDevice) : Except Err FlukeDevice :=
  if s.port.isNone then .ok s
  else .ok { s with port := Option.none }

/-- `FlukeDevice::is_connected` (fluke.rs lines 280–284): the source returns
`true` unconditionally (its own comment marks proper state tracking as a
TODO). -/
def flukeIsConnected (_ : FlukeDevice) : Bool :=
  true

/-! Section: `MockDevice` (mock.rs).

The random generator and the floating-point sample computation are I/O-like
effects: a random profile draw and the sampled value enter as parameters. -/

/-- `MockMeasurementProfile` (mock.rs lines 17–49); the `f64` parameters are
modelled as exact rationals. -/
inductive MockProfile where
  | voltageSine : ℚ → ℚ → ℚ → ℚ → MockProfile
  | temperatureDrift : ℚ → ℚ → ℚ → ℚ → MockProfile
  | resistanceSweep : ℚ → ℚ → ℚ → ℚ → MockProfile
  | frequencyPulse : ℚ → ℚ → ℚ → ℚ → MockProfile
  | currentSine : ℚ → ℚ → ℚ → ℚ → MockProfile
deriving DecidableEq

/-- `MockMeasurementProfile::unit` (mock.rs lines 52–60). -/
def MockProfile.unit : MockProfile → MeterUnit
  | .voltageSine _ _ _ _ => .voltDc
  | .temperatureDrift _ _ _ _ => .celsius
  | .resistanceSweep _ _ _ _ => .ohm
  | .frequencyPulse _ _ _ _ => .hertz
  | .currentSine _ _ _ _ => .ampDc

/-- `MockDevice` (mock.rs lines 182–187). -/
structure MockDevice where
  connected : Bool
  measurement_count : ℕ
  profile : Option MockProfile
  started_at : Option ℕ
deriving DecidableEq

/-- `MockDevice::new` (mock.rs lines 191–198). -/
def MockDevice.new : MockDevice :=
  { connected := false, measurement_count := 0,
    profile := Option.none, started_at := Option.none }

/-- `MockDevice::connect` (mock.rs lines 242–257): no-op when connected;
otherwise zero the counter, record the start instant and store a freshly
drawn profile (`draw` is the random draw). -/
def mockConnect (draw : MockProfile) (now : ℕ) (s : MockDevice) : Except Err MockDevice :=
  if s.connected then .ok s
  else .ok { connected := true, measurement_count := 0,
             profile := some draw, started_at := some now }

/-- `MockDevice::disconnect` (mock.rs lines 259–272): no-op when not
connected; otherwise clear the connection flag, the profile and the start
instant. -/
def mockDisconnect (s : MockDevice) : Except Err MockDevice :=
  if !s.connected then .ok s
  else
    .ok { s with
          connected := false, profile := Option.none, started_at := Option.none }

/-- `MockDevice::is_connected` (mock.rs lines 274–276). -/
def mockIsConnected (s : MockDevice) : Bool :=
  s.connected

/-- `MockDevice::reset` (mock.rs lines 304–316): requires a connection; zeros
the measurement counter and records a new start instant.  (The source leaves
`self.profile` untouched.) -/
def mockReset (now : ℕ) (s : MockDevice) : Except Err MockDevice :=
  if !s.connected then .error (.connection "Not connected")
  else .ok { s with measurement_count := 0, started_at := some now }

/-- `MockDevice::generate_measurement` (mock.rs lines 201–233): bump the
counter, lazily install a profile and start instant if absent, and sample.
The floating-point sample (`profile.sample(elapsed, rng)`) is the parameter
`sampleValue`; `drawIfNone` is the random profile drawn when none is
installed and `now` the instant recorded when no start instant exists. -/
def mockGenerateMeasurement (s : MockDevice) (drawIfNone : MockProfile) (now : ℕ)
    (sampleValue : ℚ) : Measurement × MockDevice :=
  let profile := s.profile.getD drawIfNone
  let started := s.started_at.getD now
  (⟨sampleValue, profile.unit, .normal, .none⟩,
   { s with measurement_count := s.measurement_count + 1,
            profile := some profile, started_at := some started })

/-- The unit token table of `MockDevice::send_command`'s `QM` branch
(mock.rs lines 331–341). -/
def mockUnitStr : MeterUnit → String
  | .voltDc => "VDC"
  | .voltAc => "VAC"
  | .ampDc => "ADC"
  | .ampAc => "AAC"
  | .ohm => "OHM"
  | .hertz => "Hz"
  | .celsius => "CEL"
  | .fahrenheit => "FAR"
  | _ => "NONE"

/-- The state token table of `MockDevice::send_command`'s `QM` branch
(mock.rs lines 342–346). -/
def mockStateStr : MeasurementState → String
  | .normal => "NORMAL"
  | .overload => "OL"
  | _ => "NORMAL"

/-- The attribute token table of `MockDevice::send_command`'s `QM` branch
(mock.rs lines 347–352). -/
def mockAttrStr : MeasurementAttribute → String
  | .none => "NONE"
  | .goodDiode => "GOOD_DIODE"
  | .positiveEdge => "POSITIVE_EDGE"
  | _ => "NONE"

/-- Rounding of `|v| × 10^6` to the nearest integer (half away from zero) as
used to model Rust's `{:.6}` fixed formatting; `Int.fdiv` is floor division.
Rust rounds ties to even — the tie-breaking direction only moves the final
digit and is immaterial to every claim (only the digit shape matters). -/
def ratRound6 (x : ℚ) : ℤ :=
  Int.fdiv (2 * x.num * 1000000 + (x.den : ℤ)) (2 * (x.den : ℤ))

/-- Model of Rust `format!("{:.6}", value)` on the rational model of the
sample: sign, integer digits, point, exactly six fraction digits. -/
def formatFixed6 (v : ℚ) : String :=
  let n : ℕ := (ratRound6 (if v < 0 then -v else v)).toNat
  let digits := natDigits (n / 1000000) ++ '.' :: padZeros 6 (natDigits (n % 1000000))
  if v < 0 then ⟨'-' :: digits⟩ else ⟨digits⟩

/-- The `QM` response of `MockDevice::send_command` (mock.rs lines 329–357)
for a generated measurement: `0\r<value:.6>,<unit>,<state>,<attribute>\r`. -/
def mockQMResponse (m : Measurement) : String :=
  "0\r" ++ formatFixed6 m.value ++ "," ++ mockUnitStr m.unit ++ ","
    ++ mockStateStr m.state ++ "," ++ mockAttrStr m.attr ++ "\r"

/-- The full raw-command round trip of claim C8: the Fluke codec's
normalization (`send_command_internal` lines 97–117) followed by the `QM`
decode path of `get_measurement`. -/
def decodeQM (wire : String) : Except Err Measurement :=
  match normalizeResponse wire with
  | .error e => .error e
  | .ok norm => get_measurement_decode norm

/-- A character list consisting solely of decimal digit characters (the
shape of every `natDigits`/`padZeros` output), used by the round-trip
claim. -/
def IsDigitList (cs : List Char) : Prop :=
  ∀ c ∈ cs, ∃ d, d < 10 ∧ c = digitChar d

/-! Section: session manager (communication.rs).

`AppState.devices` is the `HashMap<String, ManagedDevice>`, modelled as an
association list (insertion at the front, removal by key); the boxed device
instance inside `ManagedDevice` carries no information any claim observes
and is omitted. -/

/-- `ManagedDevice` (communication.rs lines 12–16) without the boxed device
instance. -/
structure ManagedDevice where
  device_type : DeviceType
  info : DeviceInfo
deriving DecidableEq

/-- `AppState` (communication.rs lines 19–22).  `next_device_id` is a `u32`
in the source; it is modelled as a natural number with every increment taken
modulo `2 ^ 32` (release-build wrapping semantics), so reachable states keep
it below `2 ^ 32`. -/
structure AppState where
  devices : List (String × ManagedDevice)
  next_device_id : ℕ
deriving DecidableEq

/-- `AppState::new` (communication.rs lines 25–30): empty table, counter
starts at 1. -/
def AppState.new : AppState :=
  { devices := [], next_device_id := 1 }

/-- `ConnectDeviceResponse` (communication.rs lines 33–38). -/
structure ConnectDeviceResponse where
  id : String
  device_type : DeviceType
  info : DeviceInfo
deriving DecidableEq

/-- The device-type string match of `connect_device`
(communication.rs lines 54–59). -/
def parseDeviceType (s : String) : Option DeviceType :=
  if s = "Fluke289" then some .fluke289
  else if s = "Fluke287" then some .fluke287
  else if s = "Mock" then some .mock
  else Option.none

/-- The `Display` rendering of `error.rs`'s `Error` (its `#[error]`
attributes); the foreign payloads of `Serial`/`Io`/`Json` are omitted. -/
def errToString : Err → String
  | .serial => "Serial communication error"
  | .ioErr => "IO error"
  | .parse m => "Parse error: " ++ m
  | .device m => "Device error: " ++ m
  | .timeout => "Timeout error"
  | .invalidCommand m => "Invalid command: " ++ m
  | .connection m => "Connection error: " ++ m
  | .config m => "Configuration error: " ++ m
  | .json => "JSON serialization error"

/-- `format!("device_{:04}", n)` (communication.rs line 73). -/
def formatDeviceId (n : ℕ) : String :=
  "device_" ++ (padZeros 4 (natDigits n)).asString

/-- `connect_device` (communication.rs lines 49–90).  The two awaited device
calls are I/O; their results (`device.connect()`, `device.identify()`) enter
as parameters.  Returns the response and the updated state. -/
def connect_device (device_type : String) (connectRes : Except Err Unit)
    (identifyRes : Except Err DeviceInfo) (st : AppState) :
    Except String ConnectDeviceResponse × AppState :=
  match parseDeviceType device_type with
  | Option.none => (.error "Invalid device type", st)
  | some dt =>
    match connectRes with
    | .error e => (.error ("Failed to connect: " ++ errToString e), st)
    | .ok _ =>
      match identifyRes with
      | .error e => (.error ("Failed to identify device: " ++ errToString e), st)
      | .ok info =>
        let device_id := formatDeviceId st.next_device_id
        (.ok { id := device_id, device_type := dt, info := info },
         { devices := (device_id, { device_type := dt, info := info }) :: st.devices,
           next_device_id := (st.next_device_id + 1) % 2 ^ 32 })

/-- `disconnect_device` (communication.rs lines 93–109): remove the entry if
present (NotFound otherwise).  The extracted device's `disconnect()` result
does not affect the table. -/
def disconnect_device (device_id : String) (st : AppState) :
    Except String String × AppState :=
  if (st.devices.lookup device_id).isSome then
    (.ok ("Disconnected device " ++ device_id),
     { st with devices := st.devices.filter (fun p => !(p.1 == device_id)) })
  else
    (.error ("Device " ++ device_id ++ " not found"), st)

/-- Inverse name map used to drive the manager transition system. -/
def deviceTypeName : DeviceType → String
  | .fluke289 => "Fluke289"
  | .fluke287 => "Fluke287"
  | .mock => "Mock"

/-- One manager operation of the interleaved histories of claim C6: a
connect in which both device steps succeed (with the identified info), a
connect in which a device step fails, or a disconnect of some identifier. -/
inductive MgrOp where
  | connectOk : DeviceType → DeviceInfo → MgrOp
  | connectFail : MgrOp
  | disconnect : String → MgrOp

/-- Apply one manager operation; returns the new state and the identifier
handed out, if any. -/
def mgrStep (st : AppState) : MgrOp → AppState × Option String
  | .connectOk dt info =>
    let r := connect_device (deviceTypeName dt) (.ok ()) (.ok info) st
    (r.2, match r.1 with
          | .ok resp => some resp.id
          | .error _ => Option.none)
  | .connectFail => (st, Option.none)
  | .disconnect id => ((disconnect_device id st).2, Option.none)

/-- All identifiers handed out over a history of manager operations. -/
def issuedIds (st : AppState) : List MgrOp → List String
  | [] => []
  | op :: ops =>
    let r := mgrStep st op
    r.2.toList ++ issuedIds r.1 ops

/-- Number of successful connects in a history. -/
def countConnectOk : List MgrOp → ℕ
  | [] => 0
  | .connectOk _ _ :: ops => countConnectOk ops + 1
  | _ :: ops => countConnectOk ops

end Multimeter

namespace Multimeter

/-- Convenience fact used by the decode claims: dropping the prepended
acknowledgement digit `'0'` recovers the payload. -/
theorem payloadAfterAck_prepend (msg : String) (payload : String) :
    payloadAfterAck msg ("0" ++ payload) = .ok payload := by
  rcases payload with ⟨cs⟩
  rfl

/-- Prepending the success acknowledgement keeps `parse_ack` succeeding. -/
theorem parse_ack_prepend_ok (payload : String) :
    parse_ack ("0" ++ payload) = .ok () := by
  rcases payload with ⟨cs⟩
  rfl

/-- Claim C2: for every normalized response string, acknowledgement parsing
inspects the first character and yields: `'0'` success, `'1'` an
InvalidCommand failure, `'2'` a Device failure (execution error), `'5'` a
Device failure (no data available), any other character a Parse failure
naming the unknown code, and an empty response a Parse failure. -/
theorem parse_ack_matches_spec (response : String) :
    parse_ack response = parseAckSpec response := by
  rcases response with ⟨cs⟩
  cases cs with
  | nil => rfl
  | cons c rest =>
    show parse_ack ⟨c :: rest⟩ = parseAckSpec ⟨c :: rest⟩
    unfold parse_ack parseAckSpec
    simp only [List.head?]
    by_cases h0 : c = '0'
    · subst h0; rfl
    · by_cases h1 : c = '1'
      · subst h1; rfl
      · by_cases h2 : c = '2'
        · subst h2; rfl
        · by_cases h5 : c = '5'
          · subst h5; rfl
          · rw [if_neg h0, if_neg h1, if_neg h2, if_neg h5]
            have e0 : (c == '0') = false := beq_eq_false_iff_ne.mpr h0
            have e1 : (c == '1') = false := beq_eq_false_iff_ne.mpr h1
            have e2 : (c == '2') = false := beq_eq_false_iff_ne.mpr h2
            have e5 : (c == '5') = false := beq_eq_false_iff_ne.mpr h5
            simp [ackTable, List.lookup, e0, e1, e2, e5]

/-- Claim C3: measurement payload decoding splits on commas into at least 4
fields — fewer is a Parse failure; the value field is parsed as a 64-bit
float (an unparsable value is a Parse failure naming the offender); the
unit, state and attribute tokens are mapped through the fixed enumeration
tables, whose failures name the offending token and propagate; when all four
decode, the measurement is returned.  In particular, acknowledgement `0`
with payload `3.300000,VDC,NORMAL,NONE` yields value `3.3` (the rational
33/10), unit VoltDc, state Normal, attribute None. -/
theorem parse_measurement_correct :
    (∀ s, (splitOnChar ',' s).length < 4 →
        parse_measurement s = .error (.parse "Invalid measurement response format"))
  ∧ (∀ s, 4 ≤ (splitOnChar ',' s).length →
        parseF64 (trimStr ((splitOnChar ',' s).getD 0 "")) = Option.none →
        parse_measurement s =
          .error (.parse ("Invalid measurement value: " ++ (splitOnChar ',' s).getD 0 "")))
  ∧ (∀ s v e, 4 ≤ (splitOnChar ',' s).length →
        parseF64 (trimStr ((splitOnChar ',' s).getD 0 "")) = some v →
        parse_unit (trimStr ((splitOnChar ',' s).getD 1 "")) = .error e →
        parse_measurement s = .error e)
  ∧ (∀ s v u e, 4 ≤ (splitOnChar ',' s).length →
        parseF64 (trimStr ((splitOnChar ',' s).getD 0 "")) = some v →
        parse_unit (trimStr ((splitOnChar ',' s).getD 1 "")) = .ok u →
        parse_state (trimStr ((splitOnChar ',' s).getD 2 "")) = .error e →
        parse_measurement s = .error e)
  ∧ (∀ s v u st e, 4 ≤ (splitOnChar ',' s).length →
        parseF64 (trimStr ((splitOnChar ',' s).getD 0 "")) = some v →
        parse_unit (trimStr ((splitOnChar ',' s).getD 1 "")) = .ok u →
        parse_state (trimStr ((splitOnChar ',' s).getD 2 "")) = .ok st →
        parse_attribute (trimStr ((splitOnChar ',' s).getD 3 "")) = .error e →
        parse_measurement s = .error e)
  ∧ (∀ s v u st a, 4 ≤ (splitOnChar ',' s).length →
        parseF64 (trimStr ((splitOnChar ',' s).getD 0 "")) = some v →
        parse_unit (trimStr ((splitOnChar ',' s).getD 1 "")) = .ok u →
        parse_state (trimStr ((splitOnChar ',' s).getD 2 "")) = .ok st →
        parse_attribute (trimStr ((splitOnChar ',' s).getD 3 "")) = .ok a →
        parse_measurement s = .ok ⟨v, u, st, a⟩)
  ∧ (∀ tok, (∃ u, parse_unit tok = .ok u) ∨
        parse_unit tok = .error (.parse ("Unknown unit: " ++ tok)))
  ∧ (∀ tok, (∃ st, parse_state tok = .ok st) ∨
        parse_state tok = .error (.parse ("Unknown state: " ++ tok)))
  ∧ (∀ tok, (∃ a, parse_attribute tok = .ok a) ∨
        parse_attribute tok = .error (.parse ("Unknown attribute: " ++ tok)))
  ∧ get_measurement_decode "03.300000,VDC,NORMAL,NONE" =
      .ok ⟨mkRat 33 10, .voltDc, .normal, .none⟩ := by
  refine ⟨?_, ?_, ?_, ?_, ?_, ?_, ?_, ?_, ?_, by rfl⟩
  · intro s h
    simp only [parse_measurement]
    rw [if_pos h]
  · intro s h hv
    simp only [parse_measurement]
    rw [if_neg (by omega), hv]
  · intro s v e h hv hu
    simp only [parse_measurement]
    rw [if_neg (by omega), hv, hu]
  · intro s v u e h hv hu hst
    simp only [parse_measurement]
    rw [if_neg (by omega), hv, hu, hst]
  · intro s v u st e h hv hu hst ha
    simp only [parse_measurement]
    rw [if_neg (by omega), hv, hu, hst, ha]
  · intro s v u st a h hv hu hst ha
    simp only [parse_measurement]
    rw [if_neg (by omega), hv, hu, hst, ha]
  · intro tok
    unfold parse_unit
    split
    all_goals first
      | exact Or.inl ⟨_, rfl⟩
      | exact Or.inr rfl
  · intro tok
    unfold parse_state
    split
    all_goals first
      | exact Or.inl ⟨_, rfl⟩
      | exact Or.inr rfl
  · intro tok
    unfold parse_attribute
    split
    all_goals first
      | exact Or.inl ⟨_, rfl⟩
      | exact Or.inr rfl

/-- Witness for C3: the theorem applied at concrete responses — a 2-field
payload, an unparsable value, an unknown token in each of the three
positions, and a fully valid payload. -/
theorem parse_measurement_correct_witness :
    parse_measurement "a,b" = .error (.parse "Invalid measurement response format")
  ∧ parse_measurement "xx,VDC,NORMAL,NONE" = .error (.parse "Invalid measurement value: xx")
  ∧ parse_measurement "1.0,XYZ,NORMAL,NONE" = .error (.parse "Unknown unit: XYZ")
  ∧ parse_measurement "1.0,VDC,XYZ,NONE" = .error (.parse "Unknown state: XYZ")
  ∧ parse_measurement "1.0,VDC,NORMAL,XYZ" = .error (.parse "Unknown attribute: XYZ")
  ∧ parse_measurement "1.0,VDC,NORMAL,NONE" = .ok ⟨mkRat 1 1, .voltDc, .normal, .none⟩ := by
  refine ⟨parse_measurement_correct.1 _ (by decide),
    parse_measurement_correct.2.1 _ (by decide) (by rfl),
    parse_measurement_correct.2.2.1 _ (mkRat 1 1) _ (by decide) (by rfl) (by rfl),
    parse_measurement_correct.2.2.2.1 _ (mkRat 1 1) .voltDc _ (by decide) (by rfl) (by rfl) (by rfl),
    parse_measurement_correct.2.2.2.2.1 _ (mkRat 1 1) .voltDc .normal _
      (by decide) (by rfl) (by rfl) (by rfl) (by rfl),
    parse_measurement_correct.2.2.2.2.2.1 _ (mkRat 1 1) .voltDc .normal .none
      (by decide) (by rfl) (by rfl) (by rfl) (by rfl)⟩

/-- Claim C4: identification decoding takes the payload after a successful
acknowledgement, splits it on commas into model, software version and serial
number (each trimmed of surrounding whitespace); fewer than 3 fields is a
Parse failure.  In particular `0FLUKE 289,V1.00,95081087` decodes to model
`FLUKE 289`, software version `V1.00`, serial number `95081087`. -/
theorem identify_decode_correct :
    (∀ payload m v sn, splitOnChar ',' payload = [m, v, sn] →
        identify_decode ("0" ++ payload) =
          .ok { model := trimStr m, serial_number := trimStr sn, software_version := trimStr v })
  ∧ (∀ payload, (splitOnChar ',' payload).length < 3 →
        identify_decode ("0" ++ payload) = .error (.parse "Invalid identification response"))
  ∧ identify_decode "0FLUKE 289,V1.00,95081087" =
      .ok { model := "FLUKE 289", serial_number := "95081087", software_version := "V1.00" } := by
  refine ⟨?_, ?_, by rfl⟩
  · intro payload m v sn hsplit
    simp only [identify_decode, parse_ack_prepend_ok, payloadAfterAck_prepend, hsplit]
    rfl
  · intro payload h
    simp only [identify_decode, parse_ack_prepend_ok, payloadAfterAck_prepend]
    rw [if_pos h]

/-- Helper for the timeout claim: from any state that has seen no carriage
return (pre-acknowledgement), a trace of carriage-return-free data reads,
empty reads and timed-out reads followed by a timed-out read whose elapsed
time since the last activity exceeds the ACK timeout makes the read loop
return Timeout. -/
theorem runRead_timeout_of_trigger (t : ℕ) (post : List ReadEvent) :
    ∀ (pre : List ReadEvent) (st : LoopState),
      st.carriage_returns = 0 → st.ack_received = false →
      pre.all chunkCRFree = true → pre.all (fun e => !(isFatal e)) = true →
      t - lastActivityAt st.last_activity pre > ACK_TIMEOUT →
      runRead st (pre ++ ReadEvent.timedOut t :: post) = some .timeout := by
  intro pre
  induction pre with
  | nil =>
    intro st hcr hack hcrfree hnofatal htrig
    simp only [lastActivityAt] at htrig
    simp only [List.nil_append, runRead, readStep, hack, Bool.not_false, if_pos htrig]
    rfl
  | cons e es ih =>
    intro st hcr hack hcrfree hnofatal htrig
    simp only [List.all_cons, Bool.and_eq_true] at hcrfree hnofatal
    cases e with
    | data chunk tc =>
      have h0 : countChar '\r' chunk = 0 := by
        have := hcrfree.1
        simpa [chunkCRFree] using this
      have hlt : ¬ st.carriage_returns + countChar '\r' chunk ≥ 2 := by omega
      simp only [List.cons_append, runRead, readStep, if_neg hlt]
      exact ih _ (by simp [hcr, h0]) (by simp [hack, hcr, h0]) hcrfree.2 hnofatal.2
        (by simpa [lastActivityAt] using htrig)
    | empty =>
      simp only [List.cons_append, runRead, readStep]
      exact ih st hcr hack hcrfree.2 hnofatal.2 (by simpa [lastActivityAt] using htrig)
    | timedOut t' =>
      by_cases h : t' - st.last_activity > ACK_TIMEOUT
      · simp only [List.cons_append, runRead, readStep, hack, Bool.not_false, if_pos h]
        rfl
      · simp only [List.cons_append, runRead, readStep, hack, Bool.not_false, if_neg h]
        exact ih st hcr hack hcrfree.2 hnofatal.2 (by simpa [lastActivityAt] using htrig)
    | fatal =>
      have := hnofatal.1
      simp [isFatal] at this

/-- Claim C1: for every trace of transport reads in which no carriage return
is ever delivered (and the transport raises no fatal I/O error), the command
exchange of `send_command_internal` terminates with a Timeout failure once a
read attempt times out and the elapsed time since the last successful read
exceeds the ACK timeout: the read loop does not continue past that event. -/
theorem send_command_times_out_when_unresponsive
    (t0 t : ℕ) (pre post : List ReadEvent)
    (hcrfree : pre.all chunkCRFree = true)
    (hnofatal : pre.all (fun e => !(isFatal e)) = true)
    (htrig : t - lastActivityAt t0 pre > ACK_TIMEOUT) :
    send_command_exchange t0 (pre ++ ReadEvent.timedOut t :: post) =
      some (.error .timeout) := by
  unfold send_command_exchange
  rw [runRead_timeout_of_trigger t post pre (initLoopState t0) rfl rfl hcrfree hnofatal htrig]

/-- Witness for C1: a transport that yields one carriage-return-free chunk at
instant 100 ms, an empty read, a timed-out read at 3000 ms (elapsed 2900 ms,
below the ACK timeout) and a timed-out read at 5101 ms (elapsed 5001 ms,
above the ACK timeout of 5000 ms) makes the exchange fail with Timeout. -/
theorem send_command_times_out_when_unresponsive_witness :
    send_command_exchange 0
      [ReadEvent.data "AB" 100, ReadEvent.empty, ReadEvent.timedOut 3000,
       ReadEvent.timedOut 5101] = some (.error .timeout) :=
  send_command_times_out_when_unresponsive 0 5101
    [ReadEvent.data "AB" 100, ReadEvent.empty, ReadEvent.timedOut 3000] []
    (by decide) (by decide) (by decide)

/-- Witness for C4: the theorem applied at a concrete 3-field payload with
surrounding whitespace, and at a 1-field payload. -/
theorem identify_decode_correct_witness :
    identify_decode "0A, B ,C" =
      .ok { model := "A", serial_number := "C", software_version := "B" }
  ∧ identify_decode "0x" = .error (.parse "Invalid identification response") := by
  constructor
  · have h := identify_decode_correct.1 "A, B ,C" "A" " B " "C" (by rfl)
    exact h.trans (by rfl)
  · exact identify_decode_correct.2.1 "x" (by decide)

/-- Claim C5: for every manager Connect operation, any failure — an invalid
device-type string, a failing device `connect()`, or a failing `identify()`
— propagates to the caller with the session table unchanged; an entry is
inserted (and the counter advanced) only when both steps succeed. -/
theorem connect_device_no_partial_entry :
    (∀ device_type connectRes identifyRes st msg st',
        connect_device device_type connectRes identifyRes st = (.error msg, st') →
        st' = st)
  ∧ (∀ device_type dt identifyRes st e, parseDeviceType device_type = some dt →
        connect_device device_type (.error e) identifyRes st =
          (.error ("Failed to connect: " ++ errToString e), st))
  ∧ (∀ device_type dt st e, parseDeviceType device_type = some dt →
        connect_device device_type (.ok ()) (.error e) st =
          (.error ("Failed to identify device: " ++ errToString e), st))
  ∧ (∀ device_type dt info st, parseDeviceType device_type = some dt →
        connect_device device_type (.ok ()) (.ok info) st =
          (.ok { id := formatDeviceId st.next_device_id, device_type := dt, info := info },
           { devices := (formatDeviceId st.next_device_id,
               { device_type := dt, info := info }) :: st.devices,
             next_device_id := (st.next_device_id + 1) % 2 ^ 32 })) := by
  refine ⟨?_, ?_, ?_, ?_⟩
  · intro device_type connectRes identifyRes st msg st' h
    unfold connect_device at h
    split at h
    · cases h; rfl
    · split at h
      · cases h; rfl
      · split at h
        · cases h; rfl
        · simp at h
  · intro device_type dt identifyRes st e hp
    unfold connect_device
    rw [hp]
  · intro device_type dt st e hp
    unfold connect_device
    rw [hp]
  · intro device_type dt info st hp
    unfold connect_device
    rw [hp]

/-- Witness for C5: a failing connect step and a failing identify step, each
leaving the fresh state unchanged. -/
theorem connect_device_no_partial_entry_witness :
    connect_device "Mock" (.error .timeout)
        (.ok { model := "m", serial_number := "s", software_version := "v" }) AppState.new =
      (.error "Failed to connect: Timeout error", AppState.new)
  ∧ connect_device "Mock" (.ok ()) (.error (.parse "bad")) AppState.new =
      (.error "Failed to identify device: Parse error: bad", AppState.new) := by
  constructor
  · have h := connect_device_no_partial_entry.2.1 "Mock" .mock
      (.ok { model := "m", serial_number := "s", software_version := "v" })
      AppState.new .timeout (by rfl)
    exact h.trans rfl
  · have h := connect_device_no_partial_entry.2.2.1 "Mock" .mock
      AppState.new (.parse "bad") (by rfl)
    exact h.trans rfl

/-- Digit characters decode back to their digit. -/
theorem digitVal_digitChar {d : ℕ} (h : d < 10) : digitVal (digitChar d) = d := by
  interval_cases d <;> decide

/-- Appending one digit multiplies the decoded value by ten and adds it. -/
theorem digitsToNat_snoc (ds : List Char) (c : Char) :
    digitsToNat (ds ++ [c]) = 10 * digitsToNat ds + digitVal c := by
  simp [digitsToNat, List.foldl_append]

/-- `natDigits` decodes back to the number it encodes. -/
theorem digitsToNat_natDigits : ∀ n, digitsToNat (natDigits n) = n := by
  intro n
  induction n using Nat.strong_induction_on with
  | _ n ih =>
    rw [natDigits]
    split
    · next h =>
      have : digitsToNat [digitChar n] = digitVal (digitChar n) := by
        simp [digitsToNat]
      rw [this, digitVal_digitChar h]
    · next h =>
      rw [digitsToNat_snoc, ih (n / 10) (Nat.div_lt_self (by omega) (by omega)),
        digitVal_digitChar (Nat.mod_lt _ (by omega))]
      omega

/-- Leading zero padding does not change the decoded value. -/
theorem digitsToNat_replicate_zero (k : ℕ) (ds : List Char) :
    digitsToNat (List.replicate k '0' ++ ds) = digitsToNat ds := by
  induction k with
  | zero => rfl
  | succ k ih =>
    have step : digitsToNat (List.replicate (k + 1) '0' ++ ds) =
        digitsToNat (List.replicate k '0' ++ ds) := by
      simp only [List.replicate_succ, List.cons_append, digitsToNat, List.foldl_cons]
      rfl
    rw [step, ih]

/-- The zero-padded identifier body decodes back to the counter value. -/
theorem digitsToNat_padZeros (w : ℕ) (n : ℕ) :
    digitsToNat (padZeros w (natDigits n)) = n := by
  rw [padZeros, digitsToNat_replicate_zero, digitsToNat_natDigits]

/-- `device_NNNN` identifiers of distinct counters are distinct. -/
theorem formatDeviceId_injective : Function.Injective formatDeviceId := by
  intro a b h
  have hd := congrArg String.data h
  simp only [formatDeviceId, String.data_append, List.asString] at hd
  have hlist : padZeros 4 (natDigits a) = padZeros 4 (natDigits b) :=
    List.append_cancel_left hd
  have := congrArg digitsToNat hlist
  rwa [digitsToNat_padZeros, digitsToNat_padZeros] at this

/-- Disconnects never touch the identifier counter. -/
theorem disconnect_device_next_id (id : String) (st : AppState) :
    (disconnect_device id st).2.next_device_id = st.next_device_id := by
  unfold disconnect_device
  split <;> rfl

/-- The double-success case of `connect_device`: issue the formatted counter
value, insert the entry and bump the `u32` counter (wrapping). -/
theorem connect_device_ok_eq (device_type : String) (dt : DeviceType) (info : DeviceInfo)
    (st : AppState) (hp : parseDeviceType device_type = some dt) :
    connect_device device_type (.ok ()) (.ok info) st =
      (.ok { id := formatDeviceId st.next_device_id, device_type := dt, info := info },
       { devices := (formatDeviceId st.next_device_id,
           { device_type := dt, info := info }) :: st.devices,
         next_device_id := (st.next_device_id + 1) % 2 ^ 32 }) := by
  unfold connect_device
  rw [hp]

/-- The identifiers issued over a history are the formatted counter values
starting from the state's current counter, as long as the `u32` counter does
not wrap over the history. -/
theorem issuedIds_eq (ops : List MgrOp) : ∀ st : AppState,
    st.next_device_id + countConnectOk ops ≤ 2 ^ 32 →
    issuedIds st ops =
      (List.range' st.next_device_id (countConnectOk ops)).map formatDeviceId := by
  induction ops with
  | nil => intro st _; rfl
  | cons op ops ih =>
    intro st hb
    cases op with
    | connectOk dt info =>
      have hp : parseDeviceType (deviceTypeName dt) = some dt := by
        cases dt <;> rfl
      have hc := connect_device_ok_eq (deviceTypeName dt) dt info st hp
      simp only [countConnectOk] at hb
      simp only [issuedIds, mgrStep, hc, Option.toList_some, countConnectOk]
      by_cases hk : countConnectOk ops = 0
      · have hb' : (st.next_device_id + 1) % 2 ^ 32 + countConnectOk ops ≤ 2 ^ 32 := by
          omega
        rw [ih _ hb', hk]
        rfl
      · have hmod : (st.next_device_id + 1) % 2 ^ 32 = st.next_device_id + 1 :=
          Nat.mod_eq_of_lt (by omega)
        have hb' : (st.next_device_id + 1) % 2 ^ 32 + countConnectOk ops ≤ 2 ^ 32 := by
          omega
        rw [ih _ hb']
        show formatDeviceId st.next_device_id ::
            (List.range' ((st.next_device_id + 1) % 2 ^ 32) (countConnectOk ops)).map
              formatDeviceId =
          (List.range' st.next_device_id (countConnectOk ops + 1)).map formatDeviceId
        rw [hmod]
        rfl
    | connectFail =>
      simp only [countConnectOk] at hb
      simp only [issuedIds, mgrStep, Option.toList_none, countConnectOk, List.nil_append]
      exact ih st hb
    | disconnect id =>
      simp only [countConnectOk] at hb
      simp only [issuedIds, mgrStep, Option.toList_none, countConnectOk, List.nil_append]
      have hb' : ((disconnect_device id st).2).next_device_id + countConnectOk ops ≤ 2 ^ 32 := by
        rw [disconnect_device_next_id]
        exact hb
      rw [ih _ hb', disconnect_device_next_id]

/-- The identifiers issued over a history of successful connects only: the
wrapping counter sequence, formatted. -/
theorem issuedIds_replicate_connect (dt : DeviceType) (info : DeviceInfo) :
    ∀ (n : ℕ) (st : AppState), st.next_device_id < 2 ^ 32 →
      issuedIds st (List.replicate n (MgrOp.connectOk dt info)) =
        (List.range n).map
          (fun i => formatDeviceId ((st.next_device_id + i) % 2 ^ 32)) := by
  intro n
  induction n with
  | zero => intro st _; rfl
  | succ n ih =>
    intro st hlt
    have hp : parseDeviceType (deviceTypeName dt) = some dt := by
      cases dt <;> rfl
    have hc := connect_device_ok_eq (deviceTypeName dt) dt info st hp
    rw [List.replicate_succ]
    simp only [issuedIds, mgrStep, hc, Option.toList_some]
    rw [ih _ (Nat.mod_lt _ (by norm_num))]
    rw [List.range_succ_eq_map]
    simp only [List.map_cons, List.map_map, List.cons_append, List.nil_append]
    refine congrArg₂ List.cons ?_ ?_
    · rw [Nat.add_zero, Nat.mod_eq_of_lt hlt]
    · refine List.map_congr_left ?_
      intro i _
      show formatDeviceId (((st.next_device_id + 1) % 2 ^ 32 + i) % 2 ^ 32) =
        formatDeviceId ((st.next_device_id + Nat.succ i) % 2 ^ 32)
      rw [Nat.mod_add_mod]
      congr 1
      omega

/-- Counterexample for C6: the identifier counter is a `u32`
(communication.rs line 21) whose `+= 1` wraps modulo `2 ^ 32`, so over the
concrete history of `2 ^ 32 + 1` successful connects the identifier
`device_0001` is handed out twice — the issued identifiers are not pairwise
distinct for the process lifetime. -/
theorem session_ids_wrap_counterexample :
    ¬ (issuedIds AppState.new
        (List.replicate (2 ^ 32 + 1)
          (MgrOp.connectOk DeviceType.mock
            { model := "m", serial_number := "s", software_version := "v" }))).Pairwise
        (· ≠ ·) := by
  intro hpair
  rw [issuedIds_replicate_connect _ _ _ _ (by norm_num [AppState.new])] at hpair
  rw [show AppState.new.next_device_id = 1 from rfl] at hpair
  rw [List.range_succ, List.map_append, List.map_cons, List.map_nil] at hpair
  obtain ⟨-, -, hdisj⟩ := List.pairwise_append.mp hpair
  have hmem : formatDeviceId 1 ∈
      (List.range (2 ^ 32)).map (fun i => formatDeviceId ((1 + i) % 2 ^ 32)) := by
    exact List.mem_map.mpr ⟨0, List.mem_range.mpr (by norm_num), rfl⟩
  have hlast : formatDeviceId ((1 + 2 ^ 32) % 2 ^ 32) = formatDeviceId 1 := by
    rfl
  have hne := hdisj _ hmem (formatDeviceId ((1 + 2 ^ 32) % 2 ^ 32))
    (List.mem_singleton.mpr rfl)
  rw [hlast] at hne
  exact hne rfl

/-- Claim C6 (amended): identifiers are generated from a `u32` counter
starting at 1 whose increment wraps modulo `2 ^ 32`; across every interleaved
history of connects and disconnects with fewer than `2 ^ 32` successful
connects, the identifiers handed out are exactly `device_NNNN` (zero padded)
of the strictly increasing counter values 1, 2, …, one per successful
connect — pairwise distinct and never reused even after a disconnect.  (Once
the counter wraps, identifiers repeat — see the counterexample.) -/
theorem session_ids_monotone_unique (ops : List MgrOp)
    (hbound : countConnectOk ops < 2 ^ 32) :
    issuedIds AppState.new ops =
      (List.range' 1 (countConnectOk ops)).map formatDeviceId
  ∧ (issuedIds AppState.new ops).Pairwise (· ≠ ·) := by
  have h := issuedIds_eq ops AppState.new
    (by rw [show AppState.new.next_device_id = 1 from rfl]; omega)
  refine ⟨h, ?_⟩
  rw [h]
  exact (List.nodup_range' 1 (countConnectOk ops)).map formatDeviceId_injective

/-- Witness for C6 (amended): the theorem applied to a concrete four-step
history — connect, failed connect, disconnect of the first id, connect. -/
theorem session_ids_monotone_unique_witness :
    issuedIds AppState.new
        [MgrOp.connectOk DeviceType.mock
           { model := "m", serial_number := "s", software_version := "v" },
         MgrOp.connectFail,
         MgrOp.disconnect "device_0001",
         MgrOp.connectOk DeviceType.mock
           { model := "m", serial_number := "s", software_version := "v" }] =
      (List.range' 1 (countConnectOk
        [MgrOp.connectOk DeviceType.mock
           { model := "m", serial_number := "s", software_version := "v" },
         MgrOp.connectFail,
         MgrOp.disconnect "device_0001",
         MgrOp.connectOk DeviceType.mock
           { model := "m", serial_number := "s", software_version := "v" }])).map
        formatDeviceId
  ∧ (issuedIds AppState.new
        [MgrOp.connectOk DeviceType.mock
           { model := "m", serial_number := "s", software_version := "v" },
         MgrOp.connectFail,
         MgrOp.disconnect "device_0001",
         MgrOp.connectOk DeviceType.mock
           { model := "m", serial_number := "s", software_version := "v" }]).Pairwise
      (· ≠ ·) :=
  session_ids_monotone_unique _ (by norm_num [countConnectOk])

/-- Claim C7: the specification requires `is_connected()` to observe the
true connection state on every variant; the mock variant does (false when
fresh), but the Fluke variant returns `true` unconditionally — even on a
freshly constructed, never-connected instance — so the claim fails on the
code (the source marks this with a TODO). -/
theorem is_connected_fluke_always_true :
    flukeIsConnected (FlukeDevice.new .fluke289 Option.none) = true
  ∧ mockIsConnected MockDevice.new = false
  ∧ ∀ s : FlukeDevice, flukeIsConnected s = true :=
  ⟨rfl, rfl, fun _ => rfl⟩

/-- Counterexample for C9: connecting a fresh Fluke instance with no port
name fails with a Config error, not a Connection error. -/
theorem fluke_connect_no_port_counterexample :
    flukeConnect (.ok ()) (FlukeDevice.new .fluke289 Option.none) =
      .error (.config "No port specified")
  ∧ (match flukeConnect (.ok ()) (FlukeDevice.new .fluke289 Option.none) with
     | .error (.connection _) => False
     | _ => True) :=
  ⟨rfl, trivial⟩

/-- Claim C9 (amended): calling `connect()` on a fresh Fluke instance whose
required port name configuration is absent fails with a Config error
("No port specified"), whatever the transport open would have returned. -/
theorem fluke_connect_no_port_config_error (dt : DeviceType)
    (openResult : Except Err Unit) :
    flukeConnect openResult (FlukeDevice.new dt Option.none) =
      .error (.config "No port specified") := rfl

/-- Counterexample for C10: an explicit `reset()` on a connected simulated
device keeps the already-installed generation profile — the result's profile
is the input's, no fresh draw enters `reset` (contrast `mockConnect`, which
consumes a drawn profile) — while the start instant is renewed. -/
theorem mock_reset_keeps_profile_counterexample :
    mockReset 5 { connected := true, measurement_count := 7,
                  profile := some (.voltageSine 1 2 3 4), started_at := some 0 } =
      .ok { connected := true, measurement_count := 0,
            profile := some (.voltageSine 1 2 3 4), started_at := some 5 } := rfl

/-- Claim C10 (amended): after an explicit `reset()` on a connected simulated
device the measurement counter is zeroed and the connection start instant is
newly recorded, but the signal-generation profile is retained; only
disconnect/reconnect installs a newly drawn profile. -/
theorem mock_reset_renews_start_keeps_profile (s : MockDevice) (now : ℕ)
    (h : s.connected = true) :
    mockReset now s =
      .ok { connected := s.connected, measurement_count := 0,
            profile := s.profile, started_at := some now } := by
  rcases s with ⟨c, mc, p, st⟩
  cases c
  · cases h
  · rfl

/-- Witness for C10 (amended): the theorem applied to a concrete connected
mock state. -/
theorem mock_reset_renews_start_keeps_profile_witness :
    mockReset 9 { connected := true, measurement_count := 7,
                  profile := some (.temperatureDrift 1 1 1 1), started_at := some 2 } =
      .ok { connected := true, measurement_count := 0,
            profile := some (.temperatureDrift 1 1 1 1), started_at := some 9 } :=
  mock_reset_renews_start_keeps_profile
    { connected := true, measurement_count := 7,
      profile := some (.temperatureDrift 1 1 1 1), started_at := some 2 } 9 rfl

/-- Characters of a digit string are never separators, sign marks, points,
exponent marks or whitespace, and always satisfy `Char.isDigit`. -/
theorem digitChar_props {d : ℕ} (h : d < 10) :
    (digitChar d).isDigit = true ∧ digitChar d ≠ '\r' ∧ digitChar d ≠ '\n'
  ∧ digitChar d ≠ ',' ∧ (digitChar d).isWhitespace = false ∧ digitChar d ≠ '.'
  ∧ digitChar d ≠ 'e' ∧ digitChar d ≠ 'E' ∧ digitChar d ≠ '-' ∧ digitChar d ≠ '+' := by
  interval_cases d <;> decide

/-- Every character of `natDigits n` is a digit character. -/
theorem natDigits_digits : ∀ n, IsDigitList (natDigits n) := by
  intro n
  induction n using Nat.strong_induction_on with
  | _ n ih =>
    rw [natDigits]
    split
    · next h =>
      intro c hc
      rw [List.mem_singleton] at hc
      exact ⟨n, h, hc⟩
    · next h =>
      intro c hc
      rw [List.mem_append] at hc
      rcases hc with hc | hc
      · exact ih (n / 10) (Nat.div_lt_self (by omega) (by omega)) c hc
      · rw [List.mem_singleton] at hc
        exact ⟨n % 10, Nat.mod_lt _ (by omega), hc⟩

/-- `natDigits` is never empty. -/
theorem natDigits_ne_nil (n : ℕ) : natDigits n ≠ [] := by
  rw [natDigits]
  split
  · simp
  · simp

/-- Zero-padding a digit string keeps it a digit string. -/
theorem padZeros_digits (w : ℕ) (ds : List Char) (h : IsDigitList ds) :
    IsDigitList (padZeros w ds) := by
  intro c hc
  rw [padZeros, List.mem_append] at hc
  rcases hc with hc | hc
  · exact ⟨0, by omega, (List.eq_of_mem_replicate hc)⟩
  · exact h c hc

/-- `dropWhile` is the identity when no element satisfies the predicate. -/
theorem dropWhile_eq_self_of_none {p : Char → Bool} :
    ∀ l : List Char, (∀ c ∈ l, p c = false) → l.dropWhile p = l := by
  intro l hl
  cases l with
  | nil => rfl
  | cons c cs =>
    rw [List.dropWhile_cons, hl c (List.mem_cons_self c cs)]
    simp

/-- `trimEndNewlines` is the identity on newline-free lists. -/
theorem trimEndNewlines_eq_self (cs : List Char) (h : ∀ c ∈ cs, c ≠ '\n') :
    trimEndNewlines cs = cs := by
  rw [trimEndNewlines, dropWhile_eq_self_of_none, List.reverse_reverse]
  intro c hc
  simp only [decide_eq_false_iff_not]
  exact h c (List.mem_reverse.mp hc)

/-- `trimStr` is the identity on whitespace-free strings. -/
theorem trimStr_eq_self (s : String) (h : ∀ c ∈ s.data, c.isWhitespace = false) :
    trimStr s = s := by
  rcases s with ⟨cs⟩
  show trimStr ⟨cs⟩ = ⟨cs⟩
  rw [trimStr]
  simp only [String.data]
  rw [dropWhile_eq_self_of_none cs h, dropWhile_eq_self_of_none, List.reverse_reverse]
  · rfl
  · intro c hc
    exact h c (List.mem_reverse.mp hc)

/-- `splitFirst` finds nothing when no character matches. -/
theorem splitFirst_none {p : Char → Bool} :
    ∀ cs, (∀ c ∈ cs, p c = false) → splitFirst p cs = (cs, Option.none) := by
  intro cs
  induction cs with
  | nil => intro h; rfl
  | cons c cs ih =>
    intro h
    rw [splitFirst, h c (List.mem_cons_self c cs)]
    simp only [Bool.false_eq_true, if_false]
    rw [ih (fun x hx => h x (List.mem_cons_of_mem c hx))]

/-- `splitFirst` splits at the first matching character. -/
theorem splitFirst_found {p : Char → Bool} (x : Char) (hx : p x = true) :
    ∀ as bs, (∀ c ∈ as, p c = false) →
      splitFirst p (as ++ x :: bs) = (as, some bs) := by
  intro as
  induction as with
  | nil => intro bs h; simp [splitFirst, hx]
  | cons a as ih =>
    intro bs h
    rw [List.cons_append, splitFirst, h a (List.mem_cons_self a as)]
    simp only [Bool.false_eq_true, if_false]
    rw [ih bs (fun c hc => h c (List.mem_cons_of_mem a hc))]

/-- `splitOnCharAux` produces a single field when the separator is absent. -/
theorem splitOnCharAux_no_sep (sep : Char) :
    ∀ cs acc, (∀ c ∈ cs, c ≠ sep) →
      splitOnCharAux sep cs acc = [acc.reverse ++ cs] := by
  intro cs
  induction cs with
  | nil => intro acc h; simp [splitOnCharAux]
  | cons c cs ih =>
    intro acc h
    rw [splitOnCharAux, if_neg (h c (List.mem_cons_self c cs))]
    rw [ih (c :: acc) (fun x hx => h x (List.mem_cons_of_mem c hx))]
    simp

/-- `splitOnCharAux` splits off the field before the first separator. -/
theorem splitOnCharAux_sep (sep : Char) :
    ∀ as bs acc, (∀ c ∈ as, c ≠ sep) →
      splitOnCharAux sep (as ++ sep :: bs) acc =
        (acc.reverse ++ as) :: splitOnCharAux sep bs [] := by
  intro as
  induction as with
  | nil =>
    intro bs acc h
    rw [List.nil_append, splitOnCharAux, if_pos rfl]
    simp
  | cons a as ih =>
    intro bs acc h
    rw [List.cons_append, splitOnCharAux, if_neg (h a (List.mem_cons_self a as))]
    rw [ih bs (a :: acc) (fun c hc => h c (List.mem_cons_of_mem a hc))]
    simp


/-- `stripSign` leaves a list alone when its head is not a sign mark. -/
theorem stripSign_cons_of_not_sign {c : Char} (h1 : c ≠ '-') (h2 : c ≠ '+') (r : List Char) :
    stripSign (c :: r) = (false, c :: r) := by
  unfold stripSign
  split
  · next heq =>
    rw [List.cons.injEq] at heq
    exact absurd heq.1 h1
  · next heq =>
    rw [List.cons.injEq] at heq
    exact absurd heq.1 h2
  · rfl

/-- `stripSign` strips a leading minus. -/
theorem stripSign_neg_cons (r : List Char) : stripSign ('-' :: r) = (true, r) := rfl

/-- The float parser accepts every string of the shape produced by the
fixed-point formatter — optional minus, integer digits, point, fraction
digits — and returns its exact rational value. -/
theorem parseF64_digits_dot (neg : Bool) (ip fp : List Char)
    (hip : IsDigitList ip) (hfp : IsDigitList fp) (hipne : ip ≠ []) :
    parseF64 ⟨(if neg then ['-'] else []) ++ (ip ++ '.' :: fp)⟩ =
      some (mkRat
        (if neg then -(digitsToNat (ip ++ fp) : ℤ) else (digitsToNat (ip ++ fp) : ℤ))
        (10 ^ fp.length)) := by
  have hE : ∀ c ∈ ip ++ '.' :: fp, ((c == 'e') || (c == 'E')) = false := by
    intro c hc
    rw [List.mem_append, List.mem_cons] at hc
    rcases hc with hc | hc | hc
    · obtain ⟨d, hd, rfl⟩ := hip c hc
      have p := digitChar_props hd
      simp [p.2.2.2.2.2.2.1, p.2.2.2.2.2.2.2.1]
    · subst hc; decide
    · obtain ⟨d, hd, rfl⟩ := hfp c hc
      have p := digitChar_props hd
      simp [p.2.2.2.2.2.2.1, p.2.2.2.2.2.2.2.1]
  have hdot : ∀ c ∈ ip, (c == '.') = false := by
    intro c hc
    obtain ⟨d, hd, rfl⟩ := hip c hc
    have p := digitChar_props hd
    simp [p.2.2.2.2.2.1]
  have hall : ((ip ++ fp).all Char.isDigit) = true := by
    rw [List.all_eq_true]
    intro c hc
    rw [List.mem_append] at hc
    rcases hc with hc | hc
    · obtain ⟨d, hd, rfl⟩ := hip c hc
      exact (digitChar_props hd).1
    · obtain ⟨d, hd, rfl⟩ := hfp c hc
      exact (digitChar_props hd).1
  have hne : ((ip ++ fp).isEmpty : Bool) = false := by
    have h : ip ++ fp ≠ [] := by
      intro h
      exact hipne (List.append_eq_nil.mp h).1
    simpa [List.isEmpty_iff] using h
  have hsplitE := splitFirst_none (p := fun c => c == 'e' || c == 'E') (ip ++ '.' :: fp) hE
  have hsplitDot := splitFirst_found (p := fun c => c == '.') '.' (by decide) ip fp hdot
  cases neg
  · simp only [Bool.false_eq_true, if_false, List.nil_append]
    cases ip with
    | nil => exact absurd rfl hipne
    | cons c0 ip' =>
      obtain ⟨d0, hd0, hc0⟩ := hip c0 (List.mem_cons_self c0 ip')
      have pc0 := digitChar_props hd0
      have hsign : stripSign ((c0 :: ip') ++ '.' :: fp) = (false, (c0 :: ip') ++ '.' :: fp) := by
        rw [List.cons_append]
        exact stripSign_cons_of_not_sign (hc0 ▸ pc0.2.2.2.2.2.2.2.2.1) (hc0 ▸ pc0.2.2.2.2.2.2.2.2.2) _
      simp only [parseF64, hsign, hsplitE, hsplitDot, Option.getD_some, hne,
        Bool.false_eq_true, if_false, hall, Bool.not_true]
  · simp only [if_true, List.singleton_append]
    simp only [parseF64, List.cons_append, stripSign_neg_cons, hsplitE, hsplitDot,
      Option.getD_some, hne, Bool.false_eq_true, if_false, hall, Bool.not_true]
    simp

/-- One non-separator step of the splitter. -/
theorem splitOnCharAux_cons_ne (sep c : Char) (cs acc : List Char) (h : c ≠ sep) :
    splitOnCharAux sep (c :: cs) acc = splitOnCharAux sep cs (c :: acc) := by
  simp only [splitOnCharAux, if_neg h]

/-- One separator step of the splitter. -/
theorem splitOnCharAux_cons_sep (sep : Char) (cs acc : List Char) :
    splitOnCharAux sep (sep :: cs) acc = acc.reverse :: splitOnCharAux sep cs [] := by
  simp [splitOnCharAux]

/-- The Fluke codec decodes any wire response of the mock's `QM` shape —
acknowledgement `0`, carriage return, separator-free value text that parses
as a float, a unit token, `NORMAL`, `NONE`, carriage return — to the parsed
value with the decoded unit, Normal state and None attribute. -/
theorem decodeQM_shaped (valData : List Char)
    (hvsafe : ∀ c ∈ valData, c ≠ '\r' ∧ c ≠ '\n' ∧ c ≠ ',' ∧ c.isWhitespace = false)
    (q : ℚ) (hq : parseF64 ⟨valData⟩ = some q)
    (ustr : String) (u : MeterUnit)
    (hu : parse_unit (trimStr ustr) = .ok u)
    (hus : ∀ c ∈ ustr.data, c ≠ '\r' ∧ c ≠ '\n' ∧ c ≠ ',') :
    decodeQM ⟨'0' :: '\r' :: ((valData ++ ',' :: (ustr.data ++ ",NORMAL,NONE".data)) ++ ['\r'])⟩ =
      .ok ⟨q, u, .normal, .none⟩ := by
  set payloadData := valData ++ ',' :: (ustr.data ++ ",NORMAL,NONE".data) with hpd
  have hconc : ∀ c ∈ (",NORMAL,NONE".data), c ≠ '\r' ∧ c ≠ '\n' := by decide
  have hpCR : ∀ c ∈ payloadData, c ≠ '\r' := by
    intro c hc
    rw [hpd, List.mem_append, List.mem_cons, List.mem_append] at hc
    rcases hc with hc | hc | hc | hc
    · exact (hvsafe c hc).1
    · subst hc; decide
    · exact (hus c hc).1
    · exact (hconc c hc).1
  have hpNL : ∀ c ∈ payloadData, c ≠ '\n' := by
    intro c hc
    rw [hpd, List.mem_append, List.mem_cons, List.mem_append] at hc
    rcases hc with hc | hc | hc | hc
    · exact (hvsafe c hc).2.1
    · subst hc; decide
    · exact (hus c hc).2.1
    · exact (hconc c hc).2
  have hpne : payloadData ≠ [] := by
    rw [hpd]
    intro h
    have := (List.append_eq_nil.mp h).2
    exact absurd this (by simp)
  have hwne : (⟨'0' :: '\r' :: (payloadData ++ ['\r'])⟩ : String) ≠ "" := by
    intro h
    have h2 := congrArg String.data h
    simp at h2
  have hsplitCR : splitOnChar '\r' ⟨'0' :: '\r' :: (payloadData ++ ['\r'])⟩ =
      ["0", ⟨payloadData⟩, ""] := by
    unfold splitOnChar
    rw [show (⟨'0' :: '\r' :: (payloadData ++ ['\r'])⟩ : String).data =
        '0' :: '\r' :: (payloadData ++ ['\r']) from rfl]
    rw [splitOnCharAux_cons_ne _ _ _ _ (by decide), splitOnCharAux_cons_sep]
    rw [show payloadData ++ ['\r'] = payloadData ++ '\r' :: [] from rfl]
    rw [splitOnCharAux_sep _ _ _ _ hpCR]
    simp [List.asString, splitOnCharAux]
  have hnorm : normalizeResponse ⟨'0' :: '\r' :: (payloadData ++ ['\r'])⟩ =
      .ok ("0" ++ ⟨payloadData⟩) := by
    unfold normalizeResponse
    rw [if_neg hwne, hsplitCR]
    simp only [List.map_cons, List.map_nil]
    rw [trimEndNewlines_eq_self payloadData hpNL]
    have hbeq : ((payloadData.asString == "") : Bool) = false :=
      beq_eq_false_iff_ne.mpr (fun h => hpne (congrArg String.data h))
    have hbeq' : ((!(payloadData.asString == "")) : Bool) = true := by
      rw [hbeq]; rfl
    have g1 : ((!(("0" : String) == "")) : Bool) = true := rfl
    have g2 : ((!((trimEndNewlines ("".data)).asString == "")) : Bool) = false := rfl
    simp only [List.filter_cons, List.filter_nil, g1, hbeq', g2, if_true, if_false,
      show (trimEndNewlines ("0".data)).asString = "0" from rfl]
    rfl
  have hvComma : ∀ c ∈ valData, c ≠ ',' := fun c hc => (hvsafe c hc).2.2.1
  have husComma : ∀ c ∈ ustr.data, c ≠ ',' := fun c hc => (hus c hc).2.2
  have hsplitComma : splitOnChar ',' ⟨payloadData⟩ =
      [⟨valData⟩, ustr, "NORMAL", "NONE"] := by
    unfold splitOnChar
    rw [show (⟨payloadData⟩ : String).data = payloadData from rfl, hpd]
    rw [splitOnCharAux_sep _ _ _ _ hvComma]
    rw [show ustr.data ++ (",NORMAL,NONE".data) =
        ustr.data ++ ',' :: ("NORMAL,NONE".data) from rfl]
    rw [splitOnCharAux_sep _ _ _ _ husComma]
    rw [show splitOnCharAux ',' ("NORMAL,NONE".data) [] = ["NORMAL".data, "NONE".data] from rfl]
    rcases ustr with ⟨ucs⟩
    simp [List.asString]
  unfold decodeQM
  rw [hnorm]
  simp only [get_measurement_decode, parse_ack_prepend_ok, payloadAfterAck_prepend]
  simp only [parse_measurement, hsplitComma]
  rw [if_neg (by simp)]
  rw [show ([(⟨valData⟩ : String), ustr, "NORMAL", "NONE"].getD 0 "") = ⟨valData⟩ from rfl]
  rw [show ([(⟨valData⟩ : String), ustr, "NORMAL", "NONE"].getD 1 "") = ustr from rfl]
  rw [show ([(⟨valData⟩ : String), ustr, "NORMAL", "NONE"].getD 2 "") = "NORMAL" from rfl]
  rw [show ([(⟨valData⟩ : String), ustr, "NORMAL", "NONE"].getD 3 "") = "NONE" from rfl]
  rw [trimStr_eq_self ⟨valData⟩ (fun c hc => (hvsafe c hc).2.2.2)]
  rw [hq, hu]
  rw [show parse_state (trimStr "NORMAL") = .ok .normal from rfl]
  rw [show parse_attribute (trimStr "NONE") = .ok .none from rfl]

/-- Every fixed-point rendering is an optional minus, the integer digits, a
point and six padded fraction digits. -/
theorem formatFixed6_data (v : ℚ) :
    ∃ (neg : Bool) (a b : ℕ),
      (formatFixed6 v).data =
        (if neg then ['-'] else []) ++ (natDigits a ++ '.' :: padZeros 6 (natDigits b)) := by
  by_cases h : v < 0
  · refine ⟨true, (ratRound6 (-v)).toNat / 1000000, (ratRound6 (-v)).toNat % 1000000, ?_⟩
    simp only [formatFixed6, if_pos h]
    rfl
  · refine ⟨false, (ratRound6 v).toNat / 1000000, (ratRound6 v).toNat % 1000000, ?_⟩
    simp only [formatFixed6, if_neg h]
    rfl

/-- Fixed-point renderings contain no carriage return, newline, comma or
whitespace. -/
theorem formatFixed6_safe (v : ℚ) :
    ∀ c ∈ (formatFixed6 v).data,
      c ≠ '\r' ∧ c ≠ '\n' ∧ c ≠ ',' ∧ c.isWhitespace = false := by
  obtain ⟨neg, a, b, hshape⟩ := formatFixed6_data v
  rw [hshape]
  intro c hc
  rw [List.mem_append, List.mem_append, List.mem_cons] at hc
  have hdig : (∃ d, d < 10 ∧ c = digitChar d) →
      c ≠ '\r' ∧ c ≠ '\n' ∧ c ≠ ',' ∧ c.isWhitespace = false := by
    rintro ⟨d, hd, rfl⟩
    have p := digitChar_props hd
    exact ⟨p.2.1, p.2.2.1, p.2.2.2.1, p.2.2.2.2.1⟩
  rcases hc with hc | hc | hc | hc
  · cases neg
    · simp at hc
    · simp only [if_true] at hc
      rw [List.mem_singleton] at hc
      subst hc
      decide
  · exact hdig (natDigits_digits a c hc)
  · subst hc; decide
  · exact hdig (padZeros_digits 6 _ (natDigits_digits b) c hc)

/-- Claim C8: every QM response the connected mock device's `send_command`
produces (status digit, carriage return, comma-separated
value/unit/state/attribute, carriage return) decodes successfully through
the Fluke wire codec: normalization and acknowledgement parsing succeed with
the success code, and measurement parsing returns a Measurement whose unit,
state and attribute equal those of the measurement the mock generated. -/
theorem mock_qm_wire_roundtrip (s : MockDevice) (draw : MockProfile) (now : ℕ) (v : ℚ) :
    ∃ decoded : Measurement,
      decodeQM (mockQMResponse (mockGenerateMeasurement s draw now v).1) = .ok decoded
      ∧ decoded.unit = (mockGenerateMeasurement s draw now v).1.unit
      ∧ decoded.state = (mockGenerateMeasurement s draw now v).1.state
      ∧ decoded.attr = (mockGenerateMeasurement s draw now v).1.attr := by
  have hm : (mockGenerateMeasurement s draw now v).1 =
      ⟨v, (s.profile.getD draw).unit, .normal, .none⟩ := rfl
  rw [hm]
  obtain ⟨neg, a, b, hshape⟩ := formatFixed6_data v
  have hq := parseF64_digits_dot neg (natDigits a) (padZeros 6 (natDigits b))
    (natDigits_digits a) (padZeros_digits 6 _ (natDigits_digits b)) (natDigits_ne_nil a)
  have hq' : parseF64 ⟨(formatFixed6 v).data⟩ =
      some (mkRat
        (if neg then -(digitsToNat (natDigits a ++ padZeros 6 (natDigits b)) : ℤ)
         else (digitsToNat (natDigits a ++ padZeros 6 (natDigits b)) : ℤ))
        (10 ^ (padZeros 6 (natDigits b)).length)) := by
    rw [hshape]; exact hq
  have husafe : ∀ c ∈ (mockUnitStr (s.profile.getD draw).unit).data,
      c ≠ '\r' ∧ c ≠ '\n' ∧ c ≠ ',' := by
    cases s.profile.getD draw
    · exact (by decide : ∀ c ∈ ("VDC" : String).data, c ≠ '\r' ∧ c ≠ '\n' ∧ c ≠ ',')
    · exact (by decide : ∀ c ∈ ("CEL" : String).data, c ≠ '\r' ∧ c ≠ '\n' ∧ c ≠ ',')
    · exact (by decide : ∀ c ∈ ("OHM" : String).data, c ≠ '\r' ∧ c ≠ '\n' ∧ c ≠ ',')
    · exact (by decide : ∀ c ∈ ("Hz" : String).data, c ≠ '\r' ∧ c ≠ '\n' ∧ c ≠ ',')
    · exact (by decide : ∀ c ∈ ("ADC" : String).data, c ≠ '\r' ∧ c ≠ '\n' ∧ c ≠ ',')
  have huok : parse_unit (trimStr (mockUnitStr (s.profile.getD draw).unit)) =
      .ok (s.profile.getD draw).unit := by
    cases s.profile.getD draw <;> rfl
  have hdec := decodeQM_shaped (formatFixed6 v).data (formatFixed6_safe v) _ hq'
    (mockUnitStr (s.profile.getD draw).unit) (s.profile.getD draw).unit huok husafe
  have hwire : mockQMResponse ⟨v, (s.profile.getD draw).unit, .normal, .none⟩ =
      ⟨'0' :: '\r' :: (((formatFixed6 v).data ++
        ',' :: ((mockUnitStr (s.profile.getD draw).unit).data ++ ",NORMAL,NONE".data)) ++ ['\r'])⟩ := by
    apply String.ext
    simp [mockQMResponse, String.data_append, mockStateStr, mockAttrStr, List.append_assoc]
  rw [hwire]
  exact ⟨_, hdec, rfl, rfl, rfl⟩


end Multimeter
